import Mathlib

/-!
Shallow embedding of the `ChatRoom` Durable Object of the clairvora-chat
worker (src/durable-objects/ChatRoom.ts) together with the token-payload
shape from src/lib/auth.ts and the PHP ledger client response shape from
src/lib/php-api.ts.

The room actor is single-threaded per room: every inbound WebSocket frame
is handled by `webSocketMessage`, which dispatches on the parsed `type`
field.  We model each handler as a pure function from the room state (the
`sessions` map, `roomId`, `tokenPayload`, and the SQLite `messages` table)
to a new room state paired with an ordered list of observable effects
(sends, closes, the SQL insert, the background sync scheduling, the
external end-reading call, and the delayed close-all timer).  External
inputs that the code obtains from its environment (JWT verification,
`crypto.randomUUID`, `Date.now`, the outcome of the awaited
`phpApi.endReading` call) are passed in as explicit parameters.
-/

namespace ClairvoraChat

/-- `user_type` union `"client" | "advisor"` from the TypeScript source. -/
inductive UserType where
  | client
  | advisor
deriving DecidableEq, Repr

/-- String form of a user type, as stored in the SQLite `user_type` column. -/
def UserType.str : UserType → String
  | .client => "client"
  | .advisor => "advisor"

/-- `SessionData`: the per-connection session attached to each WebSocket and
persisted verbatim via `serializeAttachment` for hibernation survival.  It
holds exactly these four fields and nothing else. -/
structure SessionData where
  userId : String
  userType : UserType
  userName : String
  authenticated : Bool
deriving DecidableEq, Repr

/-- `TokenPayload` from src/lib/auth.ts: the verified JWT claims. -/
structure TokenPayload where
  iss : String
  sub : String
  iat : Nat
  exp : Nat
  jti : String
  reading_id : String
  user_type : UserType
  user_name : String
  client_id : String
  advisor_id : String
  rate_per_minute : Nat
  client_avatar : String
  advisor_avatar : String
  client_balance : Nat
  auto_refill_enabled : Bool
deriving DecidableEq, Repr

/-- A row of the SQLite `messages` table. -/
structure StoredMessage where
  id : String
  user_id : String
  user_type : String
  user_name : String
  content : String
  timestamp : Nat
deriving DecidableEq, Repr

/-- The `ChatMessage` payload built in `handleChatMessage` (without the
constant `type: "message"` tag, which the `OutMsg.message` constructor
carries). -/
structure ChatMessage where
  id : String
  content : String
  userId : String
  userType : UserType
  userName : String
  timestamp : Nat
deriving DecidableEq, Repr

/-- Conversion from the broadcast `ChatMessage` to the SQLite row inserted
by `handleChatMessage` (same field values, snake-cased columns). -/
def storedOfChat (m : ChatMessage) : StoredMessage :=
  { id := m.id
    user_id := m.userId
    user_type := m.userType.str
    user_name := m.userName
    content := m.content
    timestamp := m.timestamp }

/-- `reason` union for `end_chat`. -/
inductive EndReason where
  | normal
  | timeout
  | lowBalance
  | disconnect
deriving DecidableEq, Repr

/-- Billing block of `EndReadingResponse` (src/lib/php-api.ts). -/
structure BillingResult where
  charged : Bool
  duration_minutes : Nat
  amount : Nat
  advisor_commission : Nat
deriving DecidableEq, Repr

/-- `EndReadingResponse` from src/lib/php-api.ts, returned by the external
`endReading` ledger call. -/
structure EndReadingResponse where
  success : Bool
  reading_id : Nat
  ended_by : String
  reason : String
  already_ended : Option Bool
  billing : Option BillingResult
  error : Option String
deriving DecidableEq, Repr

/-- Participant entries built by `getParticipantList`. -/
structure Participant where
  userId : String
  userType : UserType
  userName : String
deriving DecidableEq, Repr

/-- Outbound JSON payloads sent over a WebSocket, discriminated by their
`type` field exactly as in the source. -/
inductive OutMsg where
  | error (message : String)
  | authError (message : String)
  | authSuccess (userId : String) (participants : List Participant)
  | history (messages : List StoredMessage)
  | message (m : ChatMessage)
  | typing (userId : String) (userType : UserType) (isTyping : Bool)
  | presence (userId : String) (userType : UserType) (userName : String) (status : String)
  | chatEnded (endedBy : UserType) (userName : String) (reason : EndReason)
      (billing : Option BillingResult) (timestamp : Nat)
  | endChatSuccess (result : EndReadingResponse)
  | pong (timestamp : Nat)
deriving DecidableEq, Repr

/-- Observable effects of one event-handler run, in program order:
`send`/`close` on a connection, the synchronous SQLite insert
(`appendLog`), the background `ctx.waitUntil(syncMessageToPhp …)`
dispatch (`scheduleSync`), the awaited `phpApi.endReading` call
(`callEndReading`), and the `setTimeout` that later closes every
connection with code 1000 and clears the session map
(`scheduleCloseAll`). -/
inductive Effect where
  | send (conn : Nat) (payload : OutMsg)
  | close (conn : Nat) (code : Nat) (reason : String)
  | appendLog (row : StoredMessage)
  | scheduleSync (m : ChatMessage)
  | callEndReading (roomId : String) (endedBy : UserType) (reason : EndReason)
  | scheduleCloseAll
deriving DecidableEq, Repr

/-- The mutable fields of the `ChatRoom` instance: the `sessions` map
(modelled as an insertion-ordered association list keyed by an opaque
connection id, matching JS `Map` iteration order), `roomId`,
`tokenPayload`, and the SQLite `messages` table in insertion order. -/
structure RoomState where
  sessions : List (Nat × SessionData)
  roomId : Option String
  tokenPayload : Option TokenPayload
  messages : List StoredMessage
deriving DecidableEq, Repr

/-- Deployment environment: `JWT_SECRET` and `ENVIRONMENT` bindings.
`none`/empty model absent bindings (both are falsy in JS). -/
structure Env where
  jwtSecret : Option String
  environment : String
deriving DecidableEq, Repr

/-- JS truthiness of an optional string: `undefined` and `""` are falsy. -/
def truthy : Option String → Bool
  | none => false
  | some s => s ≠ ""

/-- Truthiness of `this.roomId` (a `string | null`). -/
def roomBound (r : Option String) : Bool :=
  truthy r

/-- Parsed inbound frames, discriminated by `type` as in
`webSocketMessage`; `other` stands for any unrecognized `type`. -/
inductive InMsg where
  | auth (token userId userType userName : Option String)
  | message (content : Option String)
  | typing (isTyping : Option Bool)
  | endChat (reason : Option EndReason)
  | ping
  | other
deriving DecidableEq, Repr

/-- `this.sessions.get(ws)` on the association list. -/
def lookupSession : List (Nat × SessionData) → Nat → Option SessionData
  | [], _ => none
  | (c, s) :: rest, conn => if c = conn then some s else lookupSession rest conn

/-- `this.sessions.set(ws, session)`: replace the value at an existing key
in place (JS `Map.set` keeps the key's insertion-order position), append at
the end if the key is absent. -/
def updateSession : List (Nat × SessionData) → Nat → SessionData → List (Nat × SessionData)
  | [], conn, s => [(conn, s)]
  | (c, old) :: rest, conn, s =>
      if c = conn then (conn, s) :: rest else (c, old) :: updateSession rest conn s

/-- `this.sessions.delete(ws)`. -/
def removeSession : List (Nat × SessionData) → Nat → List (Nat × SessionData)
  | [], _ => []
  | (c, s) :: rest, conn =>
      if c = conn then rest else (c, s) :: removeSession rest conn

/-- `broadcast(message, exclude?)`: serialize once and send to every
session with `authenticated = true`, skipping the excluded socket.
Per-recipient send failures are swallowed by the source, so the effect
list records the attempted delivery set. -/
def broadcastEffects (sessions : List (Nat × SessionData)) (payload : OutMsg)
    (exclude : Option Nat) : List Effect :=
  sessions.filterMap fun cs =>
    if some cs.1 = exclude then none
    else if cs.2.authenticated then some (.send cs.1 payload) else none

/-- `getParticipantList()`: the identities of all authenticated sessions,
in session-map iteration order. -/
def getParticipantList (sessions : List (Nat × SessionData)) : List Participant :=
  sessions.filterMap fun cs =>
    if cs.2.authenticated then
      some { userId := cs.2.userId, userType := cs.2.userType, userName := cs.2.userName }
    else none

/-- Insert one row into a list kept sorted by descending `timestamp`
(ties keep the incoming row in front, matching the comparator
`x.timestamp ≤ m.timestamp`). -/
def insertDesc (m : StoredMessage) : List StoredMessage → List StoredMessage
  | [] => [m]
  | x :: rest =>
      if x.timestamp ≤ m.timestamp then m :: x :: rest else x :: insertDesc m rest

/-- The `ORDER BY timestamp DESC` scan of the `messages` table. -/
def sortByTimestampDesc : List StoredMessage → List StoredMessage
  | [] => []
  | x :: rest => insertDesc x (sortByTimestampDesc rest)

/-- `getRecentMessages(limit)`: `SELECT … ORDER BY timestamp DESC LIMIT ?`,
collected into an array and then `reverse()`d into chronological order.
A pure read: it takes only the table and returns only the rows. -/
def getRecentMessages (limit : Nat) (log : List StoredMessage) : List StoredMessage :=
  ((sortByTimestampDesc log).take limit).reverse

/-- Characters treated as whitespace by `String.prototype.trim`. -/
def isWs (c : Char) : Bool :=
  c.isWhitespace

/-- JS `content.trim()`: strip whitespace from both ends. -/
def jsTrim (s : String) : String :=
  ⟨((s.data.dropWhile isWs).reverse.dropWhile isWs).reverse⟩

/-- One global single-character replacement, the meaning of
`.replace(/c/g, rep)` for a single-character pattern `c`. -/
def replaceAllChar (pat : Char) (rep : List Char) : List Char → List Char
  | [] => []
  | ch :: rest =>
      (if ch = pat then rep else [ch]) ++ replaceAllChar pat rep rest

/-- JS `s.substring(0, n)`. -/
def substringTo (s : String) (n : Nat) : String :=
  ⟨s.data.take n⟩

/-- `sanitizeContent`: the five chained global entity replacements
(`&`, `<`, `>`, `"`, `'`, in that order) followed by `substring(0, 1000)`. -/
def sanitizeContent (content : String) : String :=
  substringTo
    ⟨replaceAllChar '\'' "&#039;".data
      (replaceAllChar '"' "&quot;".data
        (replaceAllChar '>' "&gt;".data
          (replaceAllChar '<' "&lt;".data
            (replaceAllChar '&' "&amp;".data content.data))))⟩
    1000

/-- The shared success tail of `handleAuth`: overwrite the session's four
fields, re-`set` it in the map, persist the attachment, send
`auth_success` with the participant list computed from the updated map,
send the recent history, and broadcast `presence: online` to the others.
`newPayload` is the value `this.tokenPayload` holds at this point (set to
the verified claims on the JWT path, untouched on the development path). -/
def authSuccessPath (st : RoomState) (conn : Nat) (userId : String)
    (userType : UserType) (userName : String) (newPayload : Option TokenPayload) :
    RoomState × List Effect :=
  let session' : SessionData :=
    { userId := userId, userType := userType, userName := userName, authenticated := true }
  let sessions' := updateSession st.sessions conn session'
  ({ st with sessions := sessions', tokenPayload := newPayload },
    .send conn (.authSuccess userId (getParticipantList sessions'))
      :: .send conn (.history (getRecentMessages 100 st.messages))
      :: broadcastEffects sessions' (.presence userId userType userName "online") (some conn))

/-- `handleAuth`.  `verify` is the black-box `validateToken`; `freshId`
is the value `crypto.randomUUID()` would return on this run. -/
def handleAuth (env : Env) (verify : String → String → Option TokenPayload)
    (freshId : String) (st : RoomState) (conn : Nat)
    (token dUserId dUserType dUserName : Option String) : RoomState × List Effect :=
  if truthy token ∧ truthy env.jwtSecret then
    match verify (token.getD "") (env.jwtSecret.getD "") with
    | none =>
        (st, [.send conn (.authError "Invalid or expired token"),
              .close conn 4001 "Unauthorized"])
    | some payload =>
        if roomBound st.roomId ∧ payload.reading_id ≠ st.roomId.getD "" then
          (st, [.send conn (.authError "Token not valid for this room"),
                .close conn 4003 "Forbidden"])
        else
          authSuccessPath st conn payload.sub payload.user_type payload.user_name
            (some payload)
  else if env.environment = "development" ∧ ¬ truthy env.jwtSecret then
    authSuccessPath st conn
      (if truthy dUserId then dUserId.getD "" else freshId)
      (if dUserType = some "advisor" then .advisor else .client)
      (if truthy dUserName then dUserName.getD "" else "Anonymous")
      st.tokenPayload
  else
    (st, [.send conn (.authError "Token required"),
          .close conn 4001 "Unauthorized"])

/-- `handleChatMessage`: drop empty/whitespace-only content, otherwise
build the sanitized message, insert it into SQLite, broadcast it to all
participants (no exclusion), and schedule the background PHP sync when
both `tokenPayload` and `roomId` are truthy. -/
def handleChatMessage (freshId : String) (now : Nat) (st : RoomState) (conn : Nat)
    (session : SessionData) (content : Option String) : RoomState × List Effect :=
  match content with
  | none => (st, [])
  | some c =>
      if jsTrim c = "" then (st, [])
      else
        let m : ChatMessage :=
          { id := freshId, content := sanitizeContent c, userId := session.userId
            userType := session.userType, userName := session.userName, timestamp := now }
        ({ st with messages := st.messages ++ [storedOfChat m] },
          .appendLog (storedOfChat m)
            :: broadcastEffects st.sessions (.message m) none
            ++ (if st.tokenPayload.isSome ∧ roomBound st.roomId
                then [.scheduleSync m] else []))

/-- `handleTypingIndicator`: broadcast to others only. -/
def handleTypingIndicator (st : RoomState) (conn : Nat) (session : SessionData)
    (isTyping : Option Bool) : RoomState × List Effect :=
  (st, broadcastEffects st.sessions
        (.typing session.userId session.userType (isTyping.getD false)) (some conn))

/-- `handleEndChat`.  `endResult` is the outcome of the awaited
`phpApi.endReading` call (`.error` models a thrown/rejected promise).
On success the connections are closed and the map cleared only later, by
the 1-second `setTimeout`, recorded here as `scheduleCloseAll`. -/
def handleEndChat (now : Nat) (endResult : Except String EndReadingResponse)
    (st : RoomState) (conn : Nat) (session : SessionData) (reason? : Option EndReason) :
    RoomState × List Effect :=
  if ¬ (st.tokenPayload.isSome ∧ roomBound st.roomId) then
    (st, [.send conn (.error "Cannot end chat: missing session data")])
  else
    let endedBy := session.userType
    let reason := reason?.getD .normal
    match endResult with
    | .error _ =>
        (st, [.callEndReading (st.roomId.getD "") endedBy reason,
              .send conn (.error "Failed to end chat. Please try again.")])
    | .ok result =>
        (st, .callEndReading (st.roomId.getD "") endedBy reason
          :: broadcastEffects st.sessions
              (.chatEnded endedBy session.userName reason result.billing now) none
          ++ [.send conn (.endChatSuccess result), .scheduleCloseAll])

/-- `webSocketMessage`: the per-frame dispatcher.  Looks up the sender's
session, gates `message`/`typing`/`end_chat` on `session.authenticated`,
answers `ping` unconditionally, and reports unknown types. -/
def webSocketMessage (env : Env) (verify : String → String → Option TokenPayload)
    (freshId : String) (now : Nat) (endResult : Except String EndReadingResponse)
    (st : RoomState) (conn : Nat) (data : InMsg) : RoomState × List Effect :=
  match lookupSession st.sessions conn with
  | none => (st, [.send conn (.error "No session")])
  | some session =>
      match data with
      | .auth token dUserId dUserType dUserName =>
          handleAuth env verify freshId st conn token dUserId dUserType dUserName
      | .message content =>
          if ¬ session.authenticated then
            (st, [.send conn (.error "Not authenticated")])
          else
            handleChatMessage freshId now st conn session content
      | .typing isTyping =>
          if ¬ session.authenticated then (st, [])
          else handleTypingIndicator st conn session isTyping
      | .endChat reason? =>
          if ¬ session.authenticated then
            (st, [.send conn (.error "Not authenticated")])
          else handleEndChat now endResult st conn session reason?
      | .ping => (st, [.send conn (.pong now)])
      | .other => (st, [.send conn (.error "Unknown message type")])

/-- `webSocketClose`: broadcast `presence: offline` to the others when the
leaver was authenticated, then delete the session. -/
def webSocketClose (st : RoomState) (conn : Nat) : RoomState × List Effect :=
  let effs :=
    match lookupSession st.sessions conn with
    | some session =>
        if session.authenticated then
          broadcastEffects st.sessions
            (.presence session.userId session.userType session.userName "offline") (some conn)
        else []
    | none => []
  ({ st with sessions := removeSession st.sessions conn }, effs)

/-- `handleWebSocketUpgrade`: register a fresh unauthenticated session for
a newly accepted connection. -/
def newConnection (st : RoomState) (conn : Nat) : RoomState :=
  { st with
      sessions := updateSession st.sessions conn
        { userId := "", userType := .client, userName := "Anonymous", authenticated := false } }

/-- The constructor after a hibernation wake-up: sessions are rehydrated
verbatim from the per-connection serialized attachments, while the
in-memory `roomId` and `tokenPayload` instance fields start out `null`
(the snapshot holds only the four `SessionData` fields). -/
def restartState (attachments : List (Nat × SessionData))
    (log : List StoredMessage) : RoomState :=
  { sessions := attachments, roomId := none, tokenPayload := none, messages := log }

/-- Payload kinds that are only ever emitted through `broadcast`. -/
def isBroadcastKind : OutMsg → Bool
  | .message _ => true
  | .typing _ _ _ => true
  | .presence _ _ _ _ => true
  | .chatEnded _ _ _ _ _ => true
  | _ => false

/-! ### Helper lemmas about the session map and the broadcast engine -/

theorem mem_of_lookupSession {l : List (Nat × SessionData)} {c : Nat} {s : SessionData}
    (h : lookupSession l c = some s) : (c, s) ∈ l := by
  induction l with
  | nil => simp [lookupSession] at h
  | cons hd tl ih =>
      obtain ⟨c', s'⟩ := hd
      by_cases hc : c' = c
      · subst hc
        simp [lookupSession] at h
        subst h
        exact List.mem_cons_self _ _
      · simp [lookupSession, hc] at h
        exact List.mem_cons_of_mem _ (ih h)

theorem lookupSession_updateSession_self (l : List (Nat × SessionData)) (c : Nat)
    (s : SessionData) : lookupSession (updateSession l c s) c = some s := by
  induction l with
  | nil => simp [updateSession, lookupSession]
  | cons hd tl ih =>
      obtain ⟨c', s'⟩ := hd
      by_cases hc : c' = c
      · subst hc
        simp [updateSession, lookupSession]
      · simp [updateSession, lookupSession, hc, ih]

theorem lookupSession_updateSession_ne {c c' : Nat} (l : List (Nat × SessionData))
    (s : SessionData) (h : c ≠ c') :
    lookupSession (updateSession l c s) c' = lookupSession l c' := by
  induction l with
  | nil => simp [updateSession, lookupSession, h]
  | cons hd tl ih =>
      obtain ⟨c₀, s₀⟩ := hd
      by_cases hc : c₀ = c
      · subst hc
        simp [updateSession, lookupSession, h]
      · simp [updateSession, lookupSession, hc, ih]

theorem mem_updateSession_self (l : List (Nat × SessionData)) (c : Nat) (s : SessionData) :
    (c, s) ∈ updateSession l c s := by
  induction l with
  | nil => simp [updateSession]
  | cons hd tl ih =>
      obtain ⟨c₀, s₀⟩ := hd
      by_cases hc : c₀ = c
      · subst hc
        simp [updateSession]
      · simp only [updateSession, if_neg hc]
        exact List.mem_cons_of_mem _ ih

theorem mem_updateSession_of_ne {l : List (Nat × SessionData)} {c' : Nat} {s' : SessionData}
    (c : Nat) (s : SessionData) (hmem : (c', s') ∈ l) (h : c' ≠ c) :
    (c', s') ∈ updateSession l c s := by
  induction l with
  | nil => simp at hmem
  | cons hd tl ih =>
      obtain ⟨c₀, s₀⟩ := hd
      by_cases hc : c₀ = c
      · subst hc
        simp only [updateSession, if_pos rfl]
        rcases List.mem_cons.mp hmem with heq | htl
        · cases heq
          exact absurd rfl h
        · exact List.mem_cons_of_mem _ htl
      · simp only [updateSession, if_neg hc]
        rcases List.mem_cons.mp hmem with heq | htl
        · cases heq
          exact List.mem_cons_self _ _
        · exact List.mem_cons_of_mem _ (ih htl)

theorem send_mem_broadcastEffects {sessions : List (Nat × SessionData)} {p q : OutMsg}
    {ex : Option Nat} {c : Nat}
    (h : Effect.send c p ∈ broadcastEffects sessions q ex) :
    p = q ∧ some c ≠ ex ∧ ∃ s, (c, s) ∈ sessions ∧ s.authenticated = true := by
  rcases List.mem_filterMap.mp h with ⟨⟨c₀, s₀⟩, hmem, heq⟩
  by_cases hex : some c₀ = ex
  · simp [hex] at heq
  · by_cases hauth : s₀.authenticated = true
    · simp only [hex, if_neg, hauth, if_pos] at heq
      cases heq
      exact ⟨rfl, hex, s₀, hmem, hauth⟩
    · simp [hex, hauth] at heq

theorem mem_broadcastEffects_of {sessions : List (Nat × SessionData)} {c : Nat}
    {s : SessionData} (p : OutMsg) (ex : Option Nat) (hmem : (c, s) ∈ sessions)
    (hauth : s.authenticated = true) (hex : some c ≠ ex) :
    Effect.send c p ∈ broadcastEffects sessions p ex := by
  exact List.mem_filterMap.mpr ⟨(c, s), hmem, by simp [hex, hauth]⟩

theorem broadcastEffects_shape {sessions : List (Nat × SessionData)} {p : OutMsg}
    {ex : Option Nat} {e : Effect} (h : e ∈ broadcastEffects sessions p ex) :
    ∃ c, e = Effect.send c p := by
  rcases List.mem_filterMap.mp h with ⟨⟨c₀, s₀⟩, _, heq⟩
  by_cases hex : some c₀ = ex
  · simp [hex] at heq
  · by_cases hauth : s₀.authenticated = true
    · simp only [hex, if_neg, hauth, if_pos] at heq
      cases heq
      exact ⟨c₀, rfl⟩
    · simp [hex, hauth] at heq

/-! ### Branch characterizations of the dispatcher and of `handleAuth` -/

theorem webSocketMessage_no_session (env : Env) (verify : String → String → Option TokenPayload)
    (freshId : String) (now : Nat) (endResult : Except String EndReadingResponse)
    (st : RoomState) (conn : Nat) (d : InMsg)
    (h : lookupSession st.sessions conn = none) :
    webSocketMessage env verify freshId now endResult st conn d
      = (st, [.send conn (.error "No session")]) := by
  simp [webSocketMessage, h]

theorem webSocketMessage_auth (env : Env) (verify : String → String → Option TokenPayload)
    (freshId : String) (now : Nat) (endResult : Except String EndReadingResponse)
    (st : RoomState) (conn : Nat) (session : SessionData)
    (token dUserId dUserType dUserName : Option String)
    (h : lookupSession st.sessions conn = some session) :
    webSocketMessage env verify freshId now endResult st conn
        (.auth token dUserId dUserType dUserName)
      = handleAuth env verify freshId st conn token dUserId dUserType dUserName := by
  simp [webSocketMessage, h]

theorem webSocketMessage_message_auth (env : Env)
    (verify : String → String → Option TokenPayload)
    (freshId : String) (now : Nat) (endResult : Except String EndReadingResponse)
    (st : RoomState) (conn : Nat) (session : SessionData) (content : Option String)
    (h : lookupSession st.sessions conn = some session)
    (hauth : session.authenticated = true) :
    webSocketMessage env verify freshId now endResult st conn (.message content)
      = handleChatMessage freshId now st conn session content := by
  simp [webSocketMessage, h, hauth]

theorem webSocketMessage_typing_auth (env : Env)
    (verify : String → String → Option TokenPayload)
    (freshId : String) (now : Nat) (endResult : Except String EndReadingResponse)
    (st : RoomState) (conn : Nat) (session : SessionData) (isTyping : Option Bool)
    (h : lookupSession st.sessions conn = some session)
    (hauth : session.authenticated = true) :
    webSocketMessage env verify freshId now endResult st conn (.typing isTyping)
      = handleTypingIndicator st conn session isTyping := by
  simp [webSocketMessage, h, hauth]

theorem webSocketMessage_endChat_auth (env : Env)
    (verify : String → String → Option TokenPayload)
    (freshId : String) (now : Nat) (endResult : Except String EndReadingResponse)
    (st : RoomState) (conn : Nat) (session : SessionData) (reason? : Option EndReason)
    (h : lookupSession st.sessions conn = some session)
    (hauth : session.authenticated = true) :
    webSocketMessage env verify freshId now endResult st conn (.endChat reason?)
      = handleEndChat now endResult st conn session reason? := by
  simp [webSocketMessage, h, hauth]

theorem handleAuth_invalidToken (env : Env) (verify : String → String → Option TokenPayload)
    (freshId : String) (st : RoomState) (conn : Nat)
    (token dUserId dUserType dUserName : Option String)
    (ht : truthy token = true) (hsec : truthy env.jwtSecret = true)
    (hv : verify (token.getD "") (env.jwtSecret.getD "") = none) :
    handleAuth env verify freshId st conn token dUserId dUserType dUserName
      = (st, [.send conn (.authError "Invalid or expired token"),
              .close conn 4001 "Unauthorized"]) := by
  simp [handleAuth, ht, hsec, hv]

theorem handleAuth_roomMismatch (env : Env) (verify : String → String → Option TokenPayload)
    (freshId : String) (st : RoomState) (conn : Nat)
    (token dUserId dUserType dUserName : Option String) (payload : TokenPayload)
    (ht : truthy token = true) (hsec : truthy env.jwtSecret = true)
    (hv : verify (token.getD "") (env.jwtSecret.getD "") = some payload)
    (hb : roomBound st.roomId = true) (hne : payload.reading_id ≠ st.roomId.getD "") :
    handleAuth env verify freshId st conn token dUserId dUserType dUserName
      = (st, [.send conn (.authError "Token not valid for this room"),
              .close conn 4003 "Forbidden"]) := by
  simp [handleAuth, ht, hsec, hv, hb, hne]

theorem handleAuth_jwtSuccess (env : Env) (verify : String → String → Option TokenPayload)
    (freshId : String) (st : RoomState) (conn : Nat)
    (token dUserId dUserType dUserName : Option String) (payload : TokenPayload)
    (ht : truthy token = true) (hsec : truthy env.jwtSecret = true)
    (hv : verify (token.getD "") (env.jwtSecret.getD "") = some payload)
    (hok : ¬ (roomBound st.roomId = true ∧ payload.reading_id ≠ st.roomId.getD "")) :
    handleAuth env verify freshId st conn token dUserId dUserType dUserName
      = authSuccessPath st conn payload.sub payload.user_type payload.user_name
          (some payload) := by
  simp only [handleAuth, ht, hsec, and_self, if_true, hv]
  rw [if_neg]
  simpa using hok

theorem handleAuth_dev (env : Env) (verify : String → String → Option TokenPayload)
    (freshId : String) (st : RoomState) (conn : Nat)
    (token dUserId dUserType dUserName : Option String)
    (hdev : env.environment = "development") (hsec : truthy env.jwtSecret = false) :
    handleAuth env verify freshId st conn token dUserId dUserType dUserName
      = authSuccessPath st conn
          (if truthy dUserId then dUserId.getD "" else freshId)
          (if dUserType = some "advisor" then .advisor else .client)
          (if truthy dUserName then dUserName.getD "" else "Anonymous")
          st.tokenPayload := by
  simp [handleAuth, hdev, hsec]

theorem handleAuth_tokenRequired (env : Env) (verify : String → String → Option TokenPayload)
    (freshId : String) (st : RoomState) (conn : Nat)
    (token dUserId dUserType dUserName : Option String)
    (hno : ¬ (truthy token = true ∧ truthy env.jwtSecret = true))
    (hnodev : ¬ (env.environment = "development" ∧ truthy env.jwtSecret = false)) :
    handleAuth env verify freshId st conn token dUserId dUserType dUserName
      = (st, [.send conn (.authError "Token required"),
              .close conn 4001 "Unauthorized"]) := by
  simp only [handleAuth]
  rw [if_neg (by simpa using hno), if_neg (by simpa using hnodev)]

/-! ### Broadcast-kind payloads reach only authenticated sessions -/

theorem send_bk_authSuccessPath {st : RoomState} {conn : Nat} {userId : String}
    {userType : UserType} {userName : String} {newPayload : Option TokenPayload}
    {c : Nat} {p : OutMsg} (hbk : isBroadcastKind p = true)
    (hmem : Effect.send c p
      ∈ (authSuccessPath st conn userId userType userName newPayload).2) :
    ∃ s, (c, s) ∈ (authSuccessPath st conn userId userType userName newPayload).1.sessions
      ∧ s.authenticated = true := by
  simp only [authSuccessPath] at hmem ⊢
  rcases List.mem_cons.mp hmem with h | h
  · injection h with h1 h2
    subst h2
    simp [isBroadcastKind] at hbk
  rcases List.mem_cons.mp h with h | h
  · injection h with h1 h2
    subst h2
    simp [isBroadcastKind] at hbk
  · rcases send_mem_broadcastEffects h with ⟨_, _, s, hmem', hauth⟩
    exact ⟨s, hmem', hauth⟩

theorem send_bk_handleAuth (env : Env) (verify : String → String → Option TokenPayload)
    (freshId : String) (st : RoomState) (conn : Nat)
    (token dUserId dUserType dUserName : Option String)
    {c : Nat} {p : OutMsg} (hbk : isBroadcastKind p = true)
    (hmem : Effect.send c p
      ∈ (handleAuth env verify freshId st conn token dUserId dUserType dUserName).2) :
    ∃ s, (c, s)
        ∈ (handleAuth env verify freshId st conn token dUserId dUserType dUserName).1.sessions
      ∧ s.authenticated = true := by
  by_cases h1 : truthy token = true ∧ truthy env.jwtSecret = true
  · cases hv : verify (token.getD "") (env.jwtSecret.getD "") with
    | none =>
        rw [handleAuth_invalidToken env verify freshId st conn token dUserId dUserType
          dUserName h1.1 h1.2 hv] at hmem
        simp at hmem
        simp_all [isBroadcastKind]
    | some payload =>
        by_cases h2 : roomBound st.roomId = true ∧ payload.reading_id ≠ st.roomId.getD ""
        · rw [handleAuth_roomMismatch env verify freshId st conn token dUserId dUserType
            dUserName payload h1.1 h1.2 hv h2.1 h2.2] at hmem
          simp at hmem
          simp_all [isBroadcastKind]
        · rw [handleAuth_jwtSuccess env verify freshId st conn token dUserId dUserType
            dUserName payload h1.1 h1.2 hv h2] at hmem ⊢
          exact send_bk_authSuccessPath hbk hmem
  · by_cases h2 : env.environment = "development" ∧ truthy env.jwtSecret = false
    · rw [handleAuth_dev env verify freshId st conn token dUserId dUserType dUserName
        h2.1 h2.2] at hmem ⊢
      exact send_bk_authSuccessPath hbk hmem
    · rw [handleAuth_tokenRequired env verify freshId st conn token dUserId dUserType
        dUserName h1 h2] at hmem
      simp at hmem
      simp_all [isBroadcastKind]

/-- Every `message`, `typing`, `presence`, or `chat_ended` payload emitted
while handling any inbound frame is addressed to a connection whose
session (in the post-event session map) has `authenticated = true`. -/
theorem send_bk_webSocketMessage (env : Env) (verify : String → String → Option TokenPayload)
    (freshId : String) (now : Nat) (endResult : Except String EndReadingResponse)
    (st : RoomState) (conn : Nat) (d : InMsg)
    {c : Nat} {p : OutMsg} (hbk : isBroadcastKind p = true)
    (hmem : Effect.send c p ∈ (webSocketMessage env verify freshId now endResult st conn d).2) :
    ∃ s, (c, s) ∈ (webSocketMessage env verify freshId now endResult st conn d).1.sessions
      ∧ s.authenticated = true := by
  cases hls : lookupSession st.sessions conn with
  | none =>
      rw [webSocketMessage_no_session env verify freshId now endResult st conn d hls] at hmem
      simp at hmem
      simp_all [isBroadcastKind]
  | some session =>
      cases d with
      | auth token dUserId dUserType dUserName =>
          rw [webSocketMessage_auth env verify freshId now endResult st conn session
            token dUserId dUserType dUserName hls] at hmem ⊢
          exact send_bk_handleAuth env verify freshId st conn token dUserId dUserType
            dUserName hbk hmem
      | message content =>
          by_cases hauth : session.authenticated = true
          · rw [webSocketMessage_message_auth env verify freshId now endResult st conn
              session content hls hauth] at hmem ⊢
            cases content with
            | none => simp [handleChatMessage] at hmem
            | some cstr =>
                by_cases hws : jsTrim cstr = ""
                · simp [handleChatMessage, hws] at hmem
                · simp only [handleChatMessage, hws, if_neg] at hmem ⊢
                  rcases List.mem_cons.mp hmem with h | h
                  · cases h
                  · rcases List.mem_append.mp h with h | h
                    · rcases send_mem_broadcastEffects h with ⟨_, _, s, hmem', hauth'⟩
                      exact ⟨s, hmem', hauth'⟩
                    · rcases em (st.tokenPayload.isSome = true ∧ roomBound st.roomId = true)
                        with hc | hc <;> simp [hc] at h
          · have hauth' : session.authenticated = false := by
              revert hauth
              cases session.authenticated <;> simp
            simp [webSocketMessage, hls, hauth'] at hmem
            simp_all [isBroadcastKind]
      | typing isTyping =>
          by_cases hauth : session.authenticated = true
          · rw [webSocketMessage_typing_auth env verify freshId now endResult st conn
              session isTyping hls hauth] at hmem ⊢
            simp only [handleTypingIndicator] at hmem ⊢
            rcases send_mem_broadcastEffects hmem with ⟨_, _, s, hmem', hauth'⟩
            exact ⟨s, hmem', hauth'⟩
          · have hauth' : session.authenticated = false := by
              revert hauth
              cases session.authenticated <;> simp
            simp [webSocketMessage, hls, hauth'] at hmem
      | endChat reason? =>
          by_cases hauth : session.authenticated = true
          · rw [webSocketMessage_endChat_auth env verify freshId now endResult st conn
              session reason? hls hauth] at hmem ⊢
            by_cases hb : st.tokenPayload.isSome = true ∧ roomBound st.roomId = true
            · cases endResult with
              | error e =>
                  simp [handleEndChat, hb] at hmem
                  simp_all [isBroadcastKind]
              | ok result =>
                  simp only [handleEndChat, hb, not_true_eq_false, if_neg,
                    not_false_eq_true, and_self, if_true] at hmem ⊢
                  rcases List.mem_cons.mp hmem with h | h
                  · cases h
                  · rcases List.mem_append.mp h with h | h
                    · rcases send_mem_broadcastEffects h with ⟨_, _, s, hmem', hauth'⟩
                      exact ⟨s, hmem', hauth'⟩
                    · rcases List.mem_cons.mp h with h | h
                      · injection h with h1 h2
                        subst h2
                        simp [isBroadcastKind] at hbk
                      · simp at h
            · simp [handleEndChat, hb] at hmem
              simp_all [isBroadcastKind]
          · have hauth' : session.authenticated = false := by
              revert hauth
              cases session.authenticated <;> simp
            simp [webSocketMessage, hls, hauth'] at hmem
            simp_all [isBroadcastKind]
      | ping =>
          simp [webSocketMessage, hls] at hmem
          simp_all [isBroadcastKind]
      | other =>
          simp [webSocketMessage, hls] at hmem
          simp_all [isBroadcastKind]

theorem lookupSession_eq_of_mem_nodup {l : List (Nat × SessionData)} {c : Nat}
    {s : SessionData} (hnd : List.Nodup (l.map Prod.fst)) (hmem : (c, s) ∈ l) :
    lookupSession l c = some s := by
  induction l with
  | nil => simp at hmem
  | cons hd tl ih =>
      obtain ⟨c₀, s₀⟩ := hd
      simp only [List.map_cons, List.nodup_cons] at hnd
      rcases List.mem_cons.mp hmem with heq | htl
      · cases heq
        simp [lookupSession]
      · have hc : c₀ ≠ c := by
          intro h
          subst h
          exact hnd.1 (List.mem_map.mpr ⟨(c₀, s), htl, rfl⟩)
        simp [lookupSession, hc]
        exact ih hnd.2 htl

/-! ### Sample values used by the witness theorems -/

def devEnv : Env := { jwtSecret := none, environment := "development" }

def prodEnv : Env := { jwtSecret := some "s3cret", environment := "production" }

def noVerify : String → String → Option TokenPayload := fun _ _ => none

def samplePayload : TokenPayload :=
  { iss := "clairvora.com", sub := "u1", iat := 0, exp := 99, jti := "jti1",
    reading_id := "r1", user_type := .client, user_name := "Alice",
    client_id := "c1", advisor_id := "a1", rate_per_minute := 3,
    client_avatar := "", advisor_avatar := "", client_balance := 10,
    auto_refill_enabled := false }

/-- A verifier accepting exactly the token `"tok1"` under secret `"s3cret"`. -/
def sampleVerify : String → String → Option TokenPayload := fun t s =>
  if t = "tok1" ∧ s = "s3cret" then some samplePayload else none

def unauthSession : SessionData :=
  { userId := "", userType := .client, userName := "Anonymous", authenticated := false }

def sessionA : SessionData :=
  { userId := "u1", userType := .client, userName := "Alice", authenticated := true }

def sessionB : SessionData :=
  { userId := "u2", userType := .advisor, userName := "Bob", authenticated := true }

def sampleBilling : BillingResult :=
  { charged := true, duration_minutes := 5, amount := 15, advisor_commission := 6 }

def sampleResult : EndReadingResponse :=
  { success := true, reading_id := 7, ended_by := "client", reason := "normal",
    already_ended := none, billing := some sampleBilling, error := none }

def stUnauth : RoomState :=
  { sessions := [(0, unauthSession)], roomId := some "r1", tokenPayload := none,
    messages := [] }

def stTwoAuth : RoomState :=
  { sessions := [(0, sessionA), (1, sessionB)], roomId := some "r1",
    tokenPayload := some samplePayload, messages := [] }

/-! ### The claims -/

/-- Claim C1: for every session with `authenticated = false`, inbound
`message`, `typing`, and `end_chat` frames leave the room state (in
particular the message log) unchanged and produce at most a direct
`error` reply to the sender — no broadcast and no log write; moreover no
`message`/`typing`/`presence`/`chat_ended` payload emitted by any event
is ever delivered to a connection whose session has
`authenticated = false`. -/
theorem claim_C1_unauthenticated_gating
    (env : Env) (verify : String → String → Option TokenPayload)
    (freshId : String) (now : Nat) (endResult : Except String EndReadingResponse)
    (st : RoomState) (conn : Nat) (session : SessionData)
    (hs : lookupSession st.sessions conn = some session)
    (hauth : session.authenticated = false) :
    (∀ content, webSocketMessage env verify freshId now endResult st conn (.message content)
        = (st, [.send conn (.error "Not authenticated")]))
  ∧ (∀ isTyping, webSocketMessage env verify freshId now endResult st conn (.typing isTyping)
        = (st, []))
  ∧ (∀ reason?, webSocketMessage env verify freshId now endResult st conn (.endChat reason?)
        = (st, [.send conn (.error "Not authenticated")]))
  ∧ (∀ (st₂ : RoomState) (conn₂ : Nat) (d : InMsg) (c : Nat) (p : OutMsg) (s : SessionData),
      List.Nodup
        (((webSocketMessage env verify freshId now endResult st₂ conn₂ d).1.sessions).map
          Prod.fst) →
      isBroadcastKind p = true →
      Effect.send c p ∈ (webSocketMessage env verify freshId now endResult st₂ conn₂ d).2 →
      lookupSession (webSocketMessage env verify freshId now endResult st₂ conn₂ d).1.sessions c
        = some s →
      s.authenticated = true) := by
  refine ⟨?_, ?_, ?_, ?_⟩
  · intro content
    simp [webSocketMessage, hs, hauth]
  · intro isTyping
    simp [webSocketMessage, hs, hauth]
  · intro reason?
    simp [webSocketMessage, hs, hauth]
  · intro st₂ conn₂ d c p s hnd hbk hmem hlk
    rcases send_bk_webSocketMessage env verify freshId now endResult st₂ conn₂ d hbk hmem
      with ⟨s', hmem', hauth'⟩
    have := lookupSession_eq_of_mem_nodup hnd hmem'
    rw [hlk] at this
    cases this
    exact hauth'

/-- Concrete instantiation of `claim_C1_unauthenticated_gating`: a room
with one unauthenticated session, receiving a `message` frame. -/
theorem claim_C1_witness :
    lookupSession stUnauth.sessions 0 = some unauthSession
  ∧ unauthSession.authenticated = false
  ∧ webSocketMessage devEnv noVerify "id1" 5 (Except.error "down") stUnauth 0
      (.message (some "hi"))
      = (stUnauth, [.send 0 (.error "Not authenticated")]) :=
  ⟨rfl, rfl,
    (claim_C1_unauthenticated_gating devEnv noVerify "id1" 5 (Except.error "down")
      stUnauth 0 unauthSession rfl rfl).1 (some "hi")⟩

/-- Claim C2: an accepted chat message from an authenticated sender is
broadcast to every currently authenticated session, the sender's own
connection included (delivery confirmation, not a local echo); a `typing`
event from an authenticated sender is broadcast to every authenticated
session except the sender's connection, which receives nothing at all. -/
theorem claim_C2_broadcast_delivery
    (env : Env) (verify : String → String → Option TokenPayload)
    (freshId : String) (now : Nat) (endResult : Except String EndReadingResponse)
    (st : RoomState) (conn : Nat) (session : SessionData)
    (hs : lookupSession st.sessions conn = some session)
    (hauth : session.authenticated = true) :
    (∀ content c s, jsTrim content ≠ "" → (c, s) ∈ st.sessions → s.authenticated = true →
      Effect.send c (.message
          { id := freshId, content := sanitizeContent content, userId := session.userId,
            userType := session.userType, userName := session.userName, timestamp := now })
        ∈ (webSocketMessage env verify freshId now endResult st conn
            (.message (some content))).2)
  ∧ (∀ content, jsTrim content ≠ "" →
      Effect.send conn (.message
          { id := freshId, content := sanitizeContent content, userId := session.userId,
            userType := session.userType, userName := session.userName, timestamp := now })
        ∈ (webSocketMessage env verify freshId now endResult st conn
            (.message (some content))).2)
  ∧ (∀ isTyping c s, (c, s) ∈ st.sessions → s.authenticated = true → c ≠ conn →
      Effect.send c (.typing session.userId session.userType (isTyping.getD false))
        ∈ (webSocketMessage env verify freshId now endResult st conn (.typing isTyping)).2)
  ∧ (∀ isTyping p, Effect.send conn p
        ∉ (webSocketMessage env verify freshId now endResult st conn (.typing isTyping)).2) := by
  have hmsg : ∀ content c s, jsTrim content ≠ "" → (c, s) ∈ st.sessions →
      s.authenticated = true →
      Effect.send c (.message
          { id := freshId, content := sanitizeContent content, userId := session.userId,
            userType := session.userType, userName := session.userName, timestamp := now })
        ∈ (webSocketMessage env verify freshId now endResult st conn
            (.message (some content))).2 := by
    intro content c s hws hmem hsa
    rw [webSocketMessage_message_auth env verify freshId now endResult st conn session
      (some content) hs hauth]
    simp only [handleChatMessage, hws, if_neg]
    refine List.mem_cons_of_mem _ (List.mem_append.mpr (Or.inl ?_))
    exact mem_broadcastEffects_of _ none hmem hsa (by simp)
  refine ⟨hmsg, ?_, ?_, ?_⟩
  · intro content hws
    exact hmsg content conn session hws (mem_of_lookupSession hs) hauth
  · intro isTyping c s hmem hsa hne
    rw [webSocketMessage_typing_auth env verify freshId now endResult st conn session
      isTyping hs hauth]
    simp only [handleTypingIndicator]
    exact mem_broadcastEffects_of _ (some conn) hmem hsa (by simp [hne])
  · intro isTyping p hmem
    rw [webSocketMessage_typing_auth env verify freshId now endResult st conn session
      isTyping hs hauth] at hmem
    simp only [handleTypingIndicator] at hmem
    rcases send_mem_broadcastEffects hmem with ⟨_, hex, _⟩
    exact hex rfl

/-- Concrete instantiation of `claim_C2_broadcast_delivery`: two
authenticated sessions; the sender receives its own message, the peer
receives both the message and the typing indicator, and the sender
receives no typing broadcast. -/
theorem claim_C2_witness :
    lookupSession stTwoAuth.sessions 0 = some sessionA
  ∧ sessionA.authenticated = true
  ∧ jsTrim "hi" ≠ ""
  ∧ (1, sessionB) ∈ stTwoAuth.sessions
  ∧ Effect.send 0 (.message
        { id := "id1", content := sanitizeContent "hi", userId := sessionA.userId,
          userType := sessionA.userType, userName := sessionA.userName, timestamp := 5 })
      ∈ (webSocketMessage devEnv noVerify "id1" 5 (Except.error "down") stTwoAuth 0
          (.message (some "hi"))).2
  ∧ Effect.send 1 (.message
        { id := "id1", content := sanitizeContent "hi", userId := sessionA.userId,
          userType := sessionA.userType, userName := sessionA.userName, timestamp := 5 })
      ∈ (webSocketMessage devEnv noVerify "id1" 5 (Except.error "down") stTwoAuth 0
          (.message (some "hi"))).2
  ∧ Effect.send 1 (.typing sessionA.userId sessionA.userType true)
      ∈ (webSocketMessage devEnv noVerify "id1" 5 (Except.error "down") stTwoAuth 0
          (.typing (some true))).2
  ∧ (∀ p, Effect.send 0 p
      ∉ (webSocketMessage devEnv noVerify "id1" 5 (Except.error "down") stTwoAuth 0
          (.typing (some true))).2) :=
  ⟨rfl, rfl, by decide, by decide,
    (claim_C2_broadcast_delivery devEnv noVerify "id1" 5 (Except.error "down") stTwoAuth 0
      sessionA rfl rfl).2.1 "hi" (by decide),
    (claim_C2_broadcast_delivery devEnv noVerify "id1" 5 (Except.error "down") stTwoAuth 0
      sessionA rfl rfl).1 "hi" 1 sessionB (by decide) (by decide) rfl,
    (claim_C2_broadcast_delivery devEnv noVerify "id1" 5 (Except.error "down") stTwoAuth 0
      sessionA rfl rfl).2.2.1 (some true) 1 sessionB (by decide) rfl (by decide),
    fun p => (claim_C2_broadcast_delivery devEnv noVerify "id1" 5 (Except.error "down")
      stTwoAuth 0 sessionA rfl rfl).2.2.2 (some true) p⟩

theorem length_le_replaceAllChar (pat : Char) {rep : List Char} (hrep : rep ≠ [])
    (l : List Char) : l.length ≤ (replaceAllChar pat rep l).length := by
  induction l with
  | nil => simp [replaceAllChar]
  | cons ch rest ih =>
      have h1 : 1 ≤ (if ch = pat then rep else [ch]).length := by
        by_cases h : ch = pat
        · simpa [h] using List.length_pos.mpr hrep
        · simp [h]
      simp only [replaceAllChar, List.length_cons, List.length_append]
      omega

/-- A 1001-character input, used to exercise the length cap. -/
def longString : String := ⟨List.replicate 1001 'a'⟩

/-- Claim C3: an accepted chat message stores and broadcasts exactly
`sanitizeContent` of the input, computed once at acceptance (the same
value appears in the SQLite row, the broadcast payload, and the sync
job); `"<script>alert(1)</script>"` becomes its entity-escaped form; and
any input longer than the 1000-character cap is stored with length
exactly 1000 (entity escaping never shortens the text). -/
theorem claim_C3_sanitization :
    (∀ (freshId : String) (now : Nat) (st : RoomState) (conn : Nat)
        (session : SessionData) (content : String), jsTrim content ≠ "" →
      let m : ChatMessage :=
        { id := freshId, content := sanitizeContent content, userId := session.userId,
          userType := session.userType, userName := session.userName, timestamp := now }
      handleChatMessage freshId now st conn session (some content)
        = ({ st with messages := st.messages ++ [storedOfChat m] },
           .appendLog (storedOfChat m)
             :: broadcastEffects st.sessions (.message m) none
             ++ (if st.tokenPayload.isSome ∧ roomBound st.roomId
                 then [.scheduleSync m] else [])))
  ∧ sanitizeContent "<script>alert(1)</script>" = "&lt;script&gt;alert(1)&lt;/script&gt;"
  ∧ (∀ s : String, 1000 < s.length → (sanitizeContent s).length = 1000) := by
  refine ⟨?_, by decide, ?_⟩
  · intro freshId now st conn session content hws
    simp only [handleChatMessage]
    rw [if_neg hws]
  · intro s h
    have a1 := @length_le_replaceAllChar '&' "&amp;".data (by decide) s.data
    have a2 := @length_le_replaceAllChar '<' "&lt;".data (by decide)
      (replaceAllChar '&' "&amp;".data s.data)
    have a3 := @length_le_replaceAllChar '>' "&gt;".data (by decide)
      (replaceAllChar '<' "&lt;".data (replaceAllChar '&' "&amp;".data s.data))
    have a4 := @length_le_replaceAllChar '"' "&quot;".data (by decide)
      (replaceAllChar '>' "&gt;".data
        (replaceAllChar '<' "&lt;".data (replaceAllChar '&' "&amp;".data s.data)))
    have a5 := @length_le_replaceAllChar '\'' "&#039;".data (by decide)
      (replaceAllChar '"' "&quot;".data
        (replaceAllChar '>' "&gt;".data
          (replaceAllChar '<' "&lt;".data (replaceAllChar '&' "&amp;".data s.data))))
    have hs : s.length = s.data.length := rfl
    have hL : 1000 ≤ (replaceAllChar '\'' "&#039;".data
        (replaceAllChar '"' "&quot;".data
          (replaceAllChar '>' "&gt;".data
            (replaceAllChar '<' "&lt;".data
              (replaceAllChar '&' "&amp;".data s.data))))).length := by
      omega
    have hrfl : (sanitizeContent s).length
        = ((replaceAllChar '\'' "&#039;".data
            (replaceAllChar '"' "&quot;".data
              (replaceAllChar '>' "&gt;".data
                (replaceAllChar '<' "&lt;".data
                  (replaceAllChar '&' "&amp;".data s.data))))).take 1000).length := rfl
    rw [hrfl, List.length_take]
    exact Nat.min_eq_left hL

set_option maxRecDepth 40000 in
/-- Concrete instantiation of `claim_C3_sanitization`: the XSS example is
escaped in the stored row and broadcast payload, and a 1001-character
input is capped at exactly 1000. -/
theorem claim_C3_witness :
    handleChatMessage "id1" 5 stTwoAuth 0 sessionA (some "<script>alert(1)</script>")
      = ({ stTwoAuth with messages :=
            [{ id := "id1", user_id := "u1", user_type := "client", user_name := "Alice",
               content := "&lt;script&gt;alert(1)&lt;/script&gt;", timestamp := 5 }] },
         [.appendLog
            { id := "id1", user_id := "u1", user_type := "client", user_name := "Alice",
              content := "&lt;script&gt;alert(1)&lt;/script&gt;", timestamp := 5 },
          .send 0 (.message
            { id := "id1", content := "&lt;script&gt;alert(1)&lt;/script&gt;",
              userId := "u1", userType := .client, userName := "Alice", timestamp := 5 }),
          .send 1 (.message
            { id := "id1", content := "&lt;script&gt;alert(1)&lt;/script&gt;",
              userId := "u1", userType := .client, userName := "Alice", timestamp := 5 }),
          .scheduleSync
            { id := "id1", content := "&lt;script&gt;alert(1)&lt;/script&gt;",
              userId := "u1", userType := .client, userName := "Alice", timestamp := 5 }])
  ∧ 1000 < longString.length
  ∧ (sanitizeContent longString).length = 1000 := by
  refine ⟨?_, by decide, claim_C3_sanitization.2.2 longString (by decide)⟩
  have h := claim_C3_sanitization.1 "id1" 5 stTwoAuth 0 sessionA
    "<script>alert(1)</script>" (by decide)
  exact h.trans (by decide)

/-- Claim C4: an `end_chat` on a room whose context is not bound (no
successful JWT authentication has stored a `tokenPayload`) only sends the
initiator an error — no ledger call, no broadcast, no close, no state
change — even though the initiating session itself is authenticated; and
a development-mode (credential-less) authentication marks the session
authenticated without binding the context (`tokenPayload` is left
untouched). -/
theorem claim_C4_end_chat_unbound_context
    (env : Env) (verify : String → String → Option TokenPayload)
    (freshId : String) (now : Nat) (endResult : Except String EndReadingResponse)
    (st : RoomState) (conn : Nat) (session : SessionData) (reason? : Option EndReason)
    (hs : lookupSession st.sessions conn = some session)
    (hauth : session.authenticated = true)
    (hnb : st.tokenPayload = none) :
    webSocketMessage env verify freshId now endResult st conn (.endChat reason?)
      = (st, [.send conn (.error "Cannot end chat: missing session data")])
  ∧ (∀ (env₂ : Env) (verify₂ : String → String → Option TokenPayload) (freshId₂ : String)
        (st₂ : RoomState) (conn₂ : Nat) (token uid uty una : Option String),
      env₂.environment = "development" → truthy env₂.jwtSecret = false →
      (handleAuth env₂ verify₂ freshId₂ st₂ conn₂ token uid uty una).1.tokenPayload
          = st₂.tokenPayload
        ∧ lookupSession (handleAuth env₂ verify₂ freshId₂ st₂ conn₂ token uid uty una).1.sessions
            conn₂
          = some { userId := (if truthy uid then uid.getD "" else freshId₂),
                   userType := (if uty = some "advisor" then .advisor else .client),
                   userName := (if truthy una then una.getD "" else "Anonymous"),
                   authenticated := true }) := by
  constructor
  · rw [webSocketMessage_endChat_auth env verify freshId now endResult st conn session
      reason? hs hauth]
    simp [handleEndChat, hnb]
  · intro env₂ verify₂ freshId₂ st₂ conn₂ token uid uty una hdev hsec
    rw [handleAuth_dev env₂ verify₂ freshId₂ st₂ conn₂ token uid uty una hdev hsec]
    exact ⟨rfl, lookupSession_updateSession_self _ _ _⟩

def devSession : SessionData :=
  { userId := "u9", userType := .client, userName := "Niki", authenticated := true }

def stDevAuthed : RoomState :=
  { sessions := [(0, devSession)], roomId := some "r1", tokenPayload := none,
    messages := [] }

/-- Concrete instantiation of `claim_C4_end_chat_unbound_context`: a
session authenticated in development mode (so `tokenPayload` is still
`none`) issues `end_chat` and gets only the error reply. -/
theorem claim_C4_witness :
    lookupSession stDevAuthed.sessions 0 = some devSession
  ∧ devSession.authenticated = true
  ∧ stDevAuthed.tokenPayload = none
  ∧ webSocketMessage devEnv noVerify "f" 9 (Except.ok sampleResult) stDevAuthed 0
      (.endChat (some .normal))
      = (stDevAuthed, [.send 0 (.error "Cannot end chat: missing session data")])
  ∧ (handleAuth devEnv noVerify "f" stUnauth 0 none (some "u9") none (some "Niki")).1.tokenPayload
      = stUnauth.tokenPayload :=
  ⟨rfl, rfl, rfl,
    (claim_C4_end_chat_unbound_context devEnv noVerify "f" 9 (Except.ok sampleResult)
      stDevAuthed 0 devSession (some .normal) rfl rfl rfl).1,
    ((claim_C4_end_chat_unbound_context devEnv noVerify "f" 9 (Except.ok sampleResult)
      stDevAuthed 0 devSession (some .normal) rfl rfl rfl).2 devEnv noVerify "f" stUnauth 0
      none (some "u9") none (some "Niki") rfl rfl).1⟩

/-- Claim C5: every failed authentication attempt — invalid token,
room-scope mismatch against the already-bound room id, or missing token
outside credential-less mode — sends `auth_error`, closes with the
distinct code for that failure (4003 Forbidden for the mismatch, 4001
Unauthorized otherwise), and leaves the whole room state (session flags,
identity fields, token payload) unchanged, with no presence broadcast. -/
theorem claim_C5_failed_auth
    (env : Env) (verify : String → String → Option TokenPayload)
    (freshId : String) (now : Nat) (endResult : Except String EndReadingResponse)
    (st : RoomState) (conn : Nat) (session : SessionData)
    (hs : lookupSession st.sessions conn = some session) :
    (∀ token uid uty una, truthy token = true → truthy env.jwtSecret = true →
      verify (token.getD "") (env.jwtSecret.getD "") = none →
      webSocketMessage env verify freshId now endResult st conn (.auth token uid uty una)
        = (st, [.send conn (.authError "Invalid or expired token"),
                .close conn 4001 "Unauthorized"]))
  ∧ (∀ token uid uty una payload, truthy token = true → truthy env.jwtSecret = true →
      verify (token.getD "") (env.jwtSecret.getD "") = some payload →
      roomBound st.roomId = true → payload.reading_id ≠ st.roomId.getD "" →
      webSocketMessage env verify freshId now endResult st conn (.auth token uid uty una)
        = (st, [.send conn (.authError "Token not valid for this room"),
                .close conn 4003 "Forbidden"]))
  ∧ (∀ token uid uty una, truthy token = false →
      ¬ (env.environment = "development" ∧ truthy env.jwtSecret = false) →
      webSocketMessage env verify freshId now endResult st conn (.auth token uid uty una)
        = (st, [.send conn (.authError "Token required"),
                .close conn 4001 "Unauthorized"])) := by
  refine ⟨?_, ?_, ?_⟩
  · intro token uid uty una ht hsec hv
    rw [webSocketMessage_auth env verify freshId now endResult st conn session
      token uid uty una hs]
    exact handleAuth_invalidToken env verify freshId st conn token uid uty una ht hsec hv
  · intro token uid uty una payload ht hsec hv hb hne
    rw [webSocketMessage_auth env verify freshId now endResult st conn session
      token uid uty una hs]
    exact handleAuth_roomMismatch env verify freshId st conn token uid uty una payload
      ht hsec hv hb hne
  · intro token uid uty una ht hnodev
    rw [webSocketMessage_auth env verify freshId now endResult st conn session
      token uid uty una hs]
    refine handleAuth_tokenRequired env verify freshId st conn token uid uty una ?_ ?_
    · rintro ⟨h1, _⟩
      rw [ht] at h1
      cases h1
    · rintro ⟨h1, h2⟩
      exact hnodev ⟨h1, h2⟩

def stRoom2 : RoomState :=
  { sessions := [(0, unauthSession)], roomId := some "r2", tokenPayload := none,
    messages := [] }

/-- Concrete instantiation of `claim_C5_failed_auth`: an invalid token
closes with 4001; a token scoped to `"r1"` presented to an actor bound to
`"r2"` closes with 4003; a missing token in production closes with 4001 —
in each case the state is returned unchanged. -/
theorem claim_C5_witness :
    webSocketMessage prodEnv sampleVerify "f" 3 (Except.error "x") stUnauth 0
      (.auth (some "bad") none none none)
      = (stUnauth, [.send 0 (.authError "Invalid or expired token"),
                    .close 0 4001 "Unauthorized"])
  ∧ webSocketMessage prodEnv sampleVerify "f" 3 (Except.error "x") stRoom2 0
      (.auth (some "tok1") none none none)
      = (stRoom2, [.send 0 (.authError "Token not valid for this room"),
                   .close 0 4003 "Forbidden"])
  ∧ webSocketMessage prodEnv sampleVerify "f" 3 (Except.error "x") stUnauth 0
      (.auth none none none none)
      = (stUnauth, [.send 0 (.authError "Token required"),
                    .close 0 4001 "Unauthorized"]) :=
  ⟨(claim_C5_failed_auth prodEnv sampleVerify "f" 3 (Except.error "x") stUnauth 0
      unauthSession rfl).1 (some "bad") none none none (by decide) (by decide) (by decide),
   (claim_C5_failed_auth prodEnv sampleVerify "f" 3 (Except.error "x") stRoom2 0
      unauthSession rfl).2.1 (some "tok1") none none none samplePayload (by decide)
      (by decide) (by decide) (by decide) (by decide),
   (claim_C5_failed_auth prodEnv sampleVerify "f" 3 (Except.error "x") stUnauth 0
      unauthSession rfl).2.2 none none none none (by decide) (by decide)⟩

/-- Claim C6: when the awaited external `endReading` call throws or
rejects, the initiator gets an error payload and nothing else happens:
no connection is closed, no session is removed, nothing is broadcast, and
the room state is returned unchanged, so `end_chat` can be retried. -/
theorem claim_C6_end_chat_ledger_failure
    (env : Env) (verify : String → String → Option TokenPayload)
    (freshId : String) (now : Nat) (err : String)
    (st : RoomState) (conn : Nat) (session : SessionData) (reason? : Option EndReason)
    (hs : lookupSession st.sessions conn = some session)
    (hauth : session.authenticated = true)
    (htp : st.tokenPayload.isSome = true) (hrb : roomBound st.roomId = true) :
    webSocketMessage env verify freshId now (Except.error err) st conn (.endChat reason?)
      = (st, [.callEndReading (st.roomId.getD "") session.userType (reason?.getD .normal),
              .send conn (.error "Failed to end chat. Please try again.")]) := by
  rw [webSocketMessage_endChat_auth env verify freshId now (Except.error err) st conn
    session reason? hs hauth]
  simp [handleEndChat, htp, hrb]

/-- Concrete instantiation of `claim_C6_end_chat_ledger_failure`: two
authenticated sessions, a bound context, and a rejecting ledger call. -/
theorem claim_C6_witness :
    lookupSession stTwoAuth.sessions 0 = some sessionA
  ∧ stTwoAuth.tokenPayload.isSome = true
  ∧ roomBound stTwoAuth.roomId = true
  ∧ webSocketMessage prodEnv sampleVerify "f" 9 (Except.error "boom") stTwoAuth 0
      (.endChat none)
      = (stTwoAuth, [.callEndReading "r1" .client .normal,
                     .send 0 (.error "Failed to end chat. Please try again.")]) :=
  ⟨rfl, rfl, by decide,
    claim_C6_end_chat_ledger_failure prodEnv sampleVerify "f" 9 "boom" stTwoAuth 0
      sessionA none rfl rfl rfl (by decide)⟩

/-- Claim C7: an accepted chat message (authenticated sender, non-blank
content) appends exactly one row to the message log, and that append is
the first effect of the handler — it precedes every broadcast send and
the scheduling of the ledger sync job. -/
theorem claim_C7_log_append_before_broadcast
    (env : Env) (verify : String → String → Option TokenPayload)
    (freshId : String) (now : Nat) (endResult : Except String EndReadingResponse)
    (st : RoomState) (conn : Nat) (session : SessionData) (content : String)
    (hs : lookupSession st.sessions conn = some session)
    (hauth : session.authenticated = true)
    (hws : jsTrim content ≠ "") :
    let m : ChatMessage :=
      { id := freshId, content := sanitizeContent content, userId := session.userId,
        userType := session.userType, userName := session.userName, timestamp := now }
    (webSocketMessage env verify freshId now endResult st conn (.message (some content))).1
        = { st with messages := st.messages ++ [storedOfChat m] }
  ∧ (webSocketMessage env verify freshId now endResult st conn (.message (some content))).2
        = .appendLog (storedOfChat m)
            :: broadcastEffects st.sessions (.message m) none
            ++ (if st.tokenPayload.isSome ∧ roomBound st.roomId
                then [.scheduleSync m] else [])
  ∧ (∀ row, Effect.appendLog row ∈ broadcastEffects st.sessions (.message m) none → False)
  ∧ (∀ row, Effect.appendLog row
        ∈ (if st.tokenPayload.isSome ∧ roomBound st.roomId
           then [Effect.scheduleSync m] else []) → False) := by
  intro m
  rw [webSocketMessage_message_auth env verify freshId now endResult st conn session
    (some content) hs hauth]
  refine ⟨?_, ?_, ?_, ?_⟩
  · simp only [handleChatMessage]
    rw [if_neg hws]
  · simp only [handleChatMessage]
    rw [if_neg hws]
  · intro row hmem
    rcases broadcastEffects_shape hmem with ⟨c, hc⟩
    cases hc
  · intro row hmem
    rcases em (st.tokenPayload.isSome = true ∧ roomBound st.roomId = true) with hc | hc <;>
      simp [hc] at hmem

/-- Concrete instantiation of `claim_C7_log_append_before_broadcast`:
the append is effect 0, followed by the two broadcast sends and the sync
job, and the log gains exactly that one row. -/
theorem claim_C7_witness :
    jsTrim "hi" ≠ ""
  ∧ (webSocketMessage devEnv noVerify "id1" 5 (Except.error "d") stTwoAuth 0
      (.message (some "hi"))).2
      = [.appendLog
           { id := "id1", user_id := "u1", user_type := "client", user_name := "Alice",
             content := "hi", timestamp := 5 },
         .send 0 (.message
           { id := "id1", content := "hi", userId := "u1", userType := .client,
             userName := "Alice", timestamp := 5 }),
         .send 1 (.message
           { id := "id1", content := "hi", userId := "u1", userType := .client,
             userName := "Alice", timestamp := 5 }),
         .scheduleSync
           { id := "id1", content := "hi", userId := "u1", userType := .client,
             userName := "Alice", timestamp := 5 }]
  ∧ (webSocketMessage devEnv noVerify "id1" 5 (Except.error "d") stTwoAuth 0
      (.message (some "hi"))).1.messages
      = [{ id := "id1", user_id := "u1", user_type := "client", user_name := "Alice",
           content := "hi", timestamp := 5 }] := by
  have h := claim_C7_log_append_before_broadcast devEnv noVerify "id1" 5 (Except.error "d")
    stTwoAuth 0 sessionA "hi" rfl rfl (by decide)
  exact ⟨by decide, h.2.1.trans (by decide),
    (congrArg RoomState.messages h.1).trans (by decide)⟩

/-! ### Lemmas about the descending-timestamp sort used by `getRecentMessages` -/

theorem mem_insertDesc {x m : StoredMessage} {l : List StoredMessage}
    (h : x ∈ insertDesc m l) : x = m ∨ x ∈ l := by
  induction l with
  | nil => simpa [insertDesc] using h
  | cons hd tl ih =>
      by_cases hc : hd.timestamp ≤ m.timestamp
      · simp only [insertDesc, if_pos hc] at h
        rcases List.mem_cons.mp h with h | h
        · exact Or.inl h
        · exact Or.inr h
      · simp only [insertDesc, if_neg hc] at h
        rcases List.mem_cons.mp h with h | h
        · exact Or.inr (h ▸ List.mem_cons_self _ _)
        · rcases ih h with h | h
          · exact Or.inl h
          · exact Or.inr (List.mem_cons_of_mem _ h)

theorem length_insertDesc (m : StoredMessage) (l : List StoredMessage) :
    (insertDesc m l).length = l.length + 1 := by
  induction l with
  | nil => simp [insertDesc]
  | cons hd tl ih =>
      by_cases hc : hd.timestamp ≤ m.timestamp <;> simp [insertDesc, hc, ih]

theorem sorted_insertDesc {m : StoredMessage} {l : List StoredMessage}
    (h : List.Sorted (fun a b => b.timestamp ≤ a.timestamp) l) :
    List.Sorted (fun a b => b.timestamp ≤ a.timestamp) (insertDesc m l) := by
  induction l with
  | nil => simp [insertDesc]
  | cons hd tl ih =>
      rcases List.sorted_cons.mp h with ⟨hhd, htl⟩
      by_cases hc : hd.timestamp ≤ m.timestamp
      · simp only [insertDesc, if_pos hc]
        refine List.sorted_cons.mpr ⟨?_, h⟩
        intro b hb
        rcases List.mem_cons.mp hb with hb | hb
        · exact hb ▸ hc
        · exact le_trans (hhd b hb) hc
      · simp only [insertDesc, if_neg hc]
        refine List.sorted_cons.mpr ⟨?_, ih htl⟩
        intro b hb
        rcases mem_insertDesc hb with hb | hb
        · exact hb ▸ le_of_not_le hc
        · exact hhd b hb

theorem mem_sortByTimestampDesc {x : StoredMessage} {l : List StoredMessage}
    (h : x ∈ sortByTimestampDesc l) : x ∈ l := by
  induction l with
  | nil => simp [sortByTimestampDesc] at h
  | cons hd tl ih =>
      simp only [sortByTimestampDesc] at h
      rcases mem_insertDesc h with h | h
      · exact h ▸ List.mem_cons_self _ _
      · exact List.mem_cons_of_mem _ (ih h)

theorem length_sortByTimestampDesc (l : List StoredMessage) :
    (sortByTimestampDesc l).length = l.length := by
  induction l with
  | nil => simp [sortByTimestampDesc]
  | cons hd tl ih => simp [sortByTimestampDesc, length_insertDesc, ih]

theorem sorted_sortByTimestampDesc (l : List StoredMessage) :
    List.Sorted (fun a b => b.timestamp ≤ a.timestamp) (sortByTimestampDesc l) := by
  induction l with
  | nil => simp [sortByTimestampDesc]
  | cons hd tl ih => exact sorted_insertDesc ih

theorem insertDesc_eq_append {m : StoredMessage} {l : List StoredMessage}
    (h : ∀ x ∈ l, ¬ x.timestamp ≤ m.timestamp) : insertDesc m l = l ++ [m] := by
  induction l with
  | nil => simp [insertDesc]
  | cons hd tl ih =>
      have hhd := h hd (List.mem_cons_self _ _)
      simp only [insertDesc, if_neg hhd, List.cons_append]
      rw [ih fun x hx => h x (List.mem_cons_of_mem _ hx)]

theorem sortByTimestampDesc_of_chronological {l : List StoredMessage}
    (h : List.Pairwise (fun a b => a.timestamp < b.timestamp) l) :
    sortByTimestampDesc l = l.reverse := by
  induction l with
  | nil => simp [sortByTimestampDesc]
  | cons hd tl ih =>
      rcases List.pairwise_cons.mp h with ⟨hhd, htl⟩
      simp only [sortByTimestampDesc, List.reverse_cons]
      rw [ih htl]
      exact insertDesc_eq_append fun x hx =>
        not_le_of_lt (hhd x (List.mem_reverse.mp hx))

/-- Claim C8: `getRecentMessages(limit)` is a pure read, computed by
taking the first `limit` rows of the descending-timestamp scan and
reversing them.  The result has `min limit size` rows, is chronologically
ascending, consists of rows of the log, and every returned row's
timestamp is at least that of every row left out of the window; when the
log was appended in strictly increasing timestamp order the result is
exactly the last `min limit size` rows of the log, in log order. -/
theorem claim_C8_recent_messages (n : Nat) (log : List StoredMessage) :
    (getRecentMessages n log).length = min n log.length
  ∧ List.Sorted (fun a b => a.timestamp ≤ b.timestamp) (getRecentMessages n log)
  ∧ (∀ x ∈ getRecentMessages n log, x ∈ log)
  ∧ (∀ x ∈ getRecentMessages n log, ∀ y ∈ (sortByTimestampDesc log).drop n,
      y.timestamp ≤ x.timestamp)
  ∧ (List.Pairwise (fun a b => a.timestamp < b.timestamp) log →
      getRecentMessages n log = log.drop (log.length - n)) := by
  refine ⟨?_, ?_, ?_, ?_, ?_⟩
  · simp [getRecentMessages, length_sortByTimestampDesc]
  · have hs : List.Sorted (fun a b => b.timestamp ≤ a.timestamp)
        ((sortByTimestampDesc log).take n) :=
      List.Pairwise.sublist (List.take_sublist n _) (sorted_sortByTimestampDesc log)
    exact (List.pairwise_reverse).mpr hs
  · intro x hx
    rw [getRecentMessages, List.mem_reverse] at hx
    exact mem_sortByTimestampDesc (List.mem_of_mem_take hx)
  · intro x hx y hy
    rw [getRecentMessages, List.mem_reverse] at hx
    have hsplit : (sortByTimestampDesc log).take n ++ (sortByTimestampDesc log).drop n
        = sortByTimestampDesc log := List.take_append_drop n _
    have hp := sorted_sortByTimestampDesc log
    rw [← hsplit] at hp
    exact (List.pairwise_append.mp hp).2.2 x hx y hy
  · intro h
    rw [getRecentMessages, sortByTimestampDesc_of_chronological h]
    exact (List.rtake_eq_reverse_take_reverse log n).symm

def logSample : List StoredMessage :=
  [{ id := "m1", user_id := "u1", user_type := "client", user_name := "Alice",
     content := "one", timestamp := 10 },
   { id := "m2", user_id := "u2", user_type := "advisor", user_name := "Bob",
     content := "two", timestamp := 20 },
   { id := "m3", user_id := "u1", user_type := "client", user_name := "Alice",
     content := "three", timestamp := 30 }]

/-- Concrete instantiation of `claim_C8_recent_messages`: on a
chronological three-row log with limit 2, the read returns the last two
rows in log order and has length `min 2 3`. -/
theorem claim_C8_witness :
    List.Pairwise (fun a b => a.timestamp < b.timestamp) logSample
  ∧ getRecentMessages 2 logSample = logSample.drop 1
  ∧ (getRecentMessages 2 logSample).length = min 2 logSample.length :=
  ⟨by decide, (claim_C8_recent_messages 2 logSample).2.2.2.2 (by decide),
   (claim_C8_recent_messages 2 logSample).1⟩

theorem participant_mem {sessions : List (Nat × SessionData)} {c : Nat} {s : SessionData}
    (hmem : (c, s) ∈ sessions) (hauth : s.authenticated = true) :
    ({ userId := s.userId, userType := s.userType, userName := s.userName } : Participant)
      ∈ getParticipantList sessions :=
  List.mem_filterMap.mpr ⟨(c, s), hmem, by simp [hauth]⟩

/-- Claim C9: after two sequential successful development-mode `auth`
events on two different connections with two different identities, the
`auth_success` payload sent to the second authenticator carries a
participant list containing both identities — the first authenticated
session's and the second session's own. -/
theorem claim_C9_second_auth_sees_both
    (env : Env) (verify : String → String → Option TokenPayload)
    (f1 f2 : String) (now : Nat) (endResult : Except String EndReadingResponse)
    (st : RoomState) (c1 c2 : Nat) (s1 s2 : SessionData)
    (u1 n1 u2 n2 : String) (t1 t2 : Option String) (ty1 ty2 : UserType)
    (hdev : env.environment = "development") (hsec : truthy env.jwtSecret = false)
    (hne : c1 ≠ c2)
    (h1 : lookupSession st.sessions c1 = some s1)
    (h2 : lookupSession st.sessions c2 = some s2)
    (hu1 : u1 ≠ "") (hn1 : n1 ≠ "") (hu2 : u2 ≠ "") (hn2 : n2 ≠ "") (huu : u1 ≠ u2)
    (hty1 : (if t1 = some "advisor" then UserType.advisor else .client) = ty1)
    (hty2 : (if t2 = some "advisor" then UserType.advisor else .client) = ty2) :
    ∃ rest,
      (webSocketMessage env verify f2 now endResult
          (webSocketMessage env verify f1 now endResult st c1
            (.auth none (some u1) t1 (some n1))).1
          c2 (.auth none (some u2) t2 (some n2))).2
        = .send c2 (.authSuccess u2 (getParticipantList
            (updateSession (updateSession st.sessions c1
              { userId := u1, userType := ty1, userName := n1, authenticated := true }) c2
              { userId := u2, userType := ty2, userName := n2, authenticated := true })))
          :: rest
    ∧ ({ userId := u1, userType := ty1, userName := n1 } : Participant)
        ∈ getParticipantList
            (updateSession (updateSession st.sessions c1
              { userId := u1, userType := ty1, userName := n1, authenticated := true }) c2
              { userId := u2, userType := ty2, userName := n2, authenticated := true })
    ∧ ({ userId := u2, userType := ty2, userName := n2 } : Participant)
        ∈ getParticipantList
            (updateSession (updateSession st.sessions c1
              { userId := u1, userType := ty1, userName := n1, authenticated := true }) c2
              { userId := u2, userType := ty2, userName := n2, authenticated := true }) := by
  have ht1 : truthy (some u1) = true := by simp [truthy, hu1]
  have ht2 : truthy (some u2) = true := by simp [truthy, hu2]
  have hm1 : truthy (some n1) = true := by simp [truthy, hn1]
  have hm2 : truthy (some n2) = true := by simp [truthy, hn2]
  have e1 : webSocketMessage env verify f1 now endResult st c1
      (.auth none (some u1) t1 (some n1))
      = authSuccessPath st c1 u1 ty1 n1 st.tokenPayload := by
    rw [webSocketMessage_auth env verify f1 now endResult st c1 s1 none (some u1) t1
      (some n1) h1,
      handleAuth_dev env verify f1 st c1 none (some u1) t1 (some n1) hdev hsec]
    rw [if_pos ht1, if_pos hm1, hty1]
    simp
  have hlk2 : lookupSession (authSuccessPath st c1 u1 ty1 n1 st.tokenPayload).1.sessions c2
      = some s2 := by
    show lookupSession (updateSession st.sessions c1 _) c2 = some s2
    rw [lookupSession_updateSession_ne st.sessions _ hne]
    exact h2
  rw [e1]
  have e2 : webSocketMessage env verify f2 now endResult
      (authSuccessPath st c1 u1 ty1 n1 st.tokenPayload).1 c2
      (.auth none (some u2) t2 (some n2))
      = authSuccessPath (authSuccessPath st c1 u1 ty1 n1 st.tokenPayload).1 c2 u2 ty2 n2
          (authSuccessPath st c1 u1 ty1 n1 st.tokenPayload).1.tokenPayload := by
    rw [webSocketMessage_auth env verify f2 now endResult _ c2 s2 none (some u2) t2
      (some n2) hlk2,
      handleAuth_dev env verify f2 _ c2 none (some u2) t2 (some n2) hdev hsec]
    rw [if_pos ht2, if_pos hm2, hty2]
    simp
  rw [e2]
  have mm1 : (c1, ({ userId := u1, userType := ty1, userName := n1, authenticated := true } : SessionData))
      ∈ updateSession (updateSession st.sessions c1
          { userId := u1, userType := ty1, userName := n1, authenticated := true }) c2
          { userId := u2, userType := ty2, userName := n2, authenticated := true } :=
    mem_updateSession_of_ne c2 _ (mem_updateSession_self st.sessions c1 _) hne
  have mm2 : (c2, ({ userId := u2, userType := ty2, userName := n2, authenticated := true } : SessionData))
      ∈ updateSession (updateSession st.sessions c1
          { userId := u1, userType := ty1, userName := n1, authenticated := true }) c2
          { userId := u2, userType := ty2, userName := n2, authenticated := true } :=
    mem_updateSession_self _ c2 _
  exact ⟨_, rfl, participant_mem mm1 rfl, participant_mem mm2 rfl⟩

def stTwoUnauth : RoomState :=
  { sessions := [(0, unauthSession), (1, unauthSession)], roomId := some "r1",
    tokenPayload := none, messages := [] }

/-- Concrete instantiation of `claim_C9_second_auth_sees_both`: Alice
authenticates on connection 0, Bob (an advisor) on connection 1; Bob's
`auth_success` participant list contains both identities. -/
theorem claim_C9_witness :
    ∃ rest,
      (webSocketMessage devEnv noVerify "f2" 7 (Except.error "x")
          (webSocketMessage devEnv noVerify "f1" 7 (Except.error "x") stTwoUnauth 0
            (.auth none (some "alice") none (some "Alice"))).1
          1 (.auth none (some "bob") (some "advisor") (some "Bob"))).2
        = .send 1 (.authSuccess "bob" (getParticipantList
            (updateSession (updateSession stTwoUnauth.sessions 0
              { userId := "alice", userType := .client, userName := "Alice",
                authenticated := true }) 1
              { userId := "bob", userType := .advisor, userName := "Bob",
                authenticated := true })))
          :: rest
    ∧ ({ userId := "alice", userType := .client, userName := "Alice" } : Participant)
        ∈ getParticipantList
            (updateSession (updateSession stTwoUnauth.sessions 0
              { userId := "alice", userType := .client, userName := "Alice",
                authenticated := true }) 1
              { userId := "bob", userType := .advisor, userName := "Bob",
                authenticated := true })
    ∧ ({ userId := "bob", userType := .advisor, userName := "Bob" } : Participant)
        ∈ getParticipantList
            (updateSession (updateSession stTwoUnauth.sessions 0
              { userId := "alice", userType := .client, userName := "Alice",
                authenticated := true }) 1
              { userId := "bob", userType := .advisor, userName := "Bob",
                authenticated := true }) :=
  claim_C9_second_auth_sees_both devEnv noVerify "f1" "f2" 7 (Except.error "x")
    stTwoUnauth 0 1 unauthSession unauthSession "alice" "Alice" "bob" "Bob"
    none (some "advisor") .client .advisor rfl rfl (by decide) rfl rfl
    (by decide) (by decide) (by decide) (by decide) (by decide) (by decide) (by decide)

/-! ### Helpers for hibernation-restart reasoning -/

theorem webSocketMessage_message_unauth (env : Env)
    (verify : String → String → Option TokenPayload)
    (freshId : String) (now : Nat) (endResult : Except String EndReadingResponse)
    (st : RoomState) (conn : Nat) (session : SessionData) (content : Option String)
    (h : lookupSession st.sessions conn = some session)
    (hauth : session.authenticated = false) :
    webSocketMessage env verify freshId now endResult st conn (.message content)
      = (st, [.send conn (.error "Not authenticated")]) := by
  simp [webSocketMessage, h, hauth]

theorem webSocketMessage_typing_unauth (env : Env)
    (verify : String → String → Option TokenPayload)
    (freshId : String) (now : Nat) (endResult : Except String EndReadingResponse)
    (st : RoomState) (conn : Nat) (session : SessionData) (isTyping : Option Bool)
    (h : lookupSession st.sessions conn = some session)
    (hauth : session.authenticated = false) :
    webSocketMessage env verify freshId now endResult st conn (.typing isTyping)
      = (st, []) := by
  simp [webSocketMessage, h, hauth]

theorem webSocketMessage_endChat_unauth (env : Env)
    (verify : String → String → Option TokenPayload)
    (freshId : String) (now : Nat) (endResult : Except String EndReadingResponse)
    (st : RoomState) (conn : Nat) (session : SessionData) (reason? : Option EndReason)
    (h : lookupSession st.sessions conn = some session)
    (hauth : session.authenticated = false) :
    webSocketMessage env verify freshId now endResult st conn (.endChat reason?)
      = (st, [.send conn (.error "Not authenticated")]) := by
  simp [webSocketMessage, h, hauth]

theorem tokenPayload_handleChatMessage (freshId : String) (now : Nat) (st : RoomState)
    (conn : Nat) (session : SessionData) (content : Option String) :
    (handleChatMessage freshId now st conn session content).1.tokenPayload
      = st.tokenPayload := by
  cases content with
  | none => rfl
  | some c =>
      by_cases h : jsTrim c = "" <;> simp [handleChatMessage, h]

theorem tokenPayload_handleEndChat (now : Nat) (endResult : Except String EndReadingResponse)
    (st : RoomState) (conn : Nat) (session : SessionData) (reason? : Option EndReason) :
    (handleEndChat now endResult st conn session reason?).1.tokenPayload
      = st.tokenPayload := by
  by_cases h : st.tokenPayload.isSome = true ∧ roomBound st.roomId = true
  · cases endResult <;> simp [handleEndChat, h]
  · simp [handleEndChat, h]

/-- Claim C10: the hibernation snapshot of a connection holds only the
four `SessionData` fields, so a restart rehydrates the sessions verbatim
but leaves `tokenPayload` (and the in-memory `roomId`) `null`; as long as
no connection completes a fresh successful JWT verification the payload
stays `null` — hence an `end_chat` from a restored authenticated session
is answered with an error, and an accepted message from a restored
session is logged and broadcast but schedules no ledger sync job. -/
theorem claim_C10_restart_context_loss
    (env : Env) (verify : String → String → Option TokenPayload)
    (freshId : String) (now : Nat) (endResult : Except String EndReadingResponse)
    (atts : List (Nat × SessionData)) (log : List StoredMessage) :
    (restartState atts log).sessions = atts
  ∧ (restartState atts log).tokenPayload = none
  ∧ (restartState atts log).roomId = none
  ∧ (∀ conn session reason?,
      lookupSession atts conn = some session → session.authenticated = true →
      webSocketMessage env verify freshId now endResult (restartState atts log) conn
          (.endChat reason?)
        = (restartState atts log,
           [.send conn (.error "Cannot end chat: missing session data")]))
  ∧ (∀ conn session content,
      lookupSession atts conn = some session → session.authenticated = true →
      jsTrim content ≠ "" →
      let m : ChatMessage :=
        { id := freshId, content := sanitizeContent content, userId := session.userId,
          userType := session.userType, userName := session.userName, timestamp := now }
      webSocketMessage env verify freshId now endResult (restartState atts log) conn
          (.message (some content))
        = ({ restartState atts log with messages := log ++ [storedOfChat m] },
           .appendLog (storedOfChat m) :: broadcastEffects atts (.message m) none))
  ∧ (∀ (st : RoomState) (conn : Nat) (d : InMsg), st.tokenPayload = none →
      (webSocketMessage env verify freshId now endResult st conn d).1.tokenPayload ≠ none →
      ∃ token uid uty una payload,
        d = .auth token uid uty una ∧ truthy token = true ∧ truthy env.jwtSecret = true
        ∧ verify (token.getD "") (env.jwtSecret.getD "") = some payload
        ∧ (webSocketMessage env verify freshId now endResult st conn d).1.tokenPayload
            = some payload) := by
  refine ⟨rfl, rfl, rfl, ?_, ?_, ?_⟩
  · intro conn session reason? hlk hauth
    rw [webSocketMessage_endChat_auth env verify freshId now endResult
      (restartState atts log) conn session reason? hlk hauth]
    simp [handleEndChat, restartState]
  · intro conn session content hlk hauth hws
    rw [webSocketMessage_message_auth env verify freshId now endResult
      (restartState atts log) conn session (some content) hlk hauth]
    simp only [handleChatMessage]
    rw [if_neg hws]
    simp [restartState]
  · intro st conn d htp hne
    cases hls : lookupSession st.sessions conn with
    | none =>
        rw [webSocketMessage_no_session env verify freshId now endResult st conn d hls]
          at hne
        exact absurd htp hne
    | some session =>
        cases d with
        | auth token uid uty una =>
            rw [webSocketMessage_auth env verify freshId now endResult st conn session
              token uid uty una hls] at hne ⊢
            by_cases h1 : truthy token = true ∧ truthy env.jwtSecret = true
            · cases hv : verify (token.getD "") (env.jwtSecret.getD "") with
              | none =>
                  rw [handleAuth_invalidToken env verify freshId st conn token uid uty
                    una h1.1 h1.2 hv] at hne
                  exact absurd htp hne
              | some payload =>
                  by_cases h2 : roomBound st.roomId = true
                      ∧ payload.reading_id ≠ st.roomId.getD ""
                  · rw [handleAuth_roomMismatch env verify freshId st conn token uid uty
                      una payload h1.1 h1.2 hv h2.1 h2.2] at hne
                    exact absurd htp hne
                  · refine ⟨token, uid, uty, una, payload, rfl, h1.1, h1.2, hv, ?_⟩
                    rw [handleAuth_jwtSuccess env verify freshId st conn token uid uty
                      una payload h1.1 h1.2 hv h2]
                    rfl
            · by_cases h2 : env.environment = "development" ∧ truthy env.jwtSecret = false
              · rw [handleAuth_dev env verify freshId st conn token uid uty una
                  h2.1 h2.2] at hne
                exact absurd htp hne
              · rw [handleAuth_tokenRequired env verify freshId st conn token uid uty
                  una h1 h2] at hne
                exact absurd htp hne
        | message content =>
            by_cases hauth : session.authenticated = true
            · rw [webSocketMessage_message_auth env verify freshId now endResult st conn
                session content hls hauth] at hne
              rw [tokenPayload_handleChatMessage] at hne
              exact absurd htp hne
            · have hauth' : session.authenticated = false := by
                revert hauth
                cases session.authenticated <;> simp
              rw [webSocketMessage_message_unauth env verify freshId now endResult st conn
                session content hls hauth'] at hne
              exact absurd htp hne
        | typing isTyping =>
            by_cases hauth : session.authenticated = true
            · rw [webSocketMessage_typing_auth env verify freshId now endResult st conn
                session isTyping hls hauth] at hne
              exact absurd htp hne
            · have hauth' : session.authenticated = false := by
                revert hauth
                cases session.authenticated <;> simp
              rw [webSocketMessage_typing_unauth env verify freshId now endResult st conn
                session isTyping hls hauth'] at hne
              exact absurd htp hne
        | endChat reason? =>
            by_cases hauth : session.authenticated = true
            · rw [webSocketMessage_endChat_auth env verify freshId now endResult st conn
                session reason? hls hauth] at hne
              rw [tokenPayload_handleEndChat] at hne
              exact absurd htp hne
            · have hauth' : session.authenticated = false := by
                revert hauth
                cases session.authenticated <;> simp
              rw [webSocketMessage_endChat_unauth env verify freshId now endResult st conn
                session reason? hls hauth'] at hne
              exact absurd htp hne
        | ping =>
            simp only [webSocketMessage, hls] at hne
            exact absurd htp hne
        | other =>
            simp only [webSocketMessage, hls] at hne
            exact absurd htp hne

/-- Concrete instantiation of `claim_C10_restart_context_loss`: one
restored authenticated session after a restart; `end_chat` is refused and
an accepted message produces a log append and a broadcast but no
`scheduleSync`. -/
theorem claim_C10_witness :
    (restartState [(0, devSession)] []).tokenPayload = none
  ∧ webSocketMessage prodEnv sampleVerify "f" 9 (Except.ok sampleResult)
      (restartState [(0, devSession)] []) 0 (.endChat none)
      = (restartState [(0, devSession)] [],
         [.send 0 (.error "Cannot end chat: missing session data")])
  ∧ (webSocketMessage prodEnv sampleVerify "f" 9 (Except.ok sampleResult)
      (restartState [(0, devSession)] []) 0 (.message (some "hello"))).2
      = [.appendLog
           { id := "f", user_id := "u9", user_type := "client", user_name := "Niki",
             content := "hello", timestamp := 9 },
         .send 0 (.message
           { id := "f", content := "hello", userId := "u9", userType := .client,
             userName := "Niki", timestamp := 9 })] := by
  have h := claim_C10_restart_context_loss prodEnv sampleVerify "f" 9
    (Except.ok sampleResult) [(0, devSession)] []
  refine ⟨h.2.1, h.2.2.2.1 0 devSession none rfl rfl, ?_⟩
  have h5 := h.2.2.2.2.1 0 devSession "hello" rfl rfl (by decide)
  exact (congrArg Prod.snd h5).trans (by decide)

end ClairvoraChat
